import Mathlib

/-!
Verification development for the psbody-mesh build script.

The Python sources (install_psbody.py, install_psbody/infra.py,
install_psbody/install_pyopengl.py, install_psbody/__main__.py) are shallowly
embedded below.  Stateful code is modelled as explicit state passing over a
small filesystem abstraction `FS` together with an event trace; fallible code
returns an `ok`/`err` result (`Res`).  External commands (git, conda, pip,
chmod, the re-invoked child processes) are modelled by a `Behavior` record
that fixes the outcome of each external command of a run; the script's own
control flow is translated statement by statement from the source.

The pipeline model follows the POSIX branch of the source (`os.name != "nt"`);
the Windows-only binary resolution (`fetch_version_and_links`) and the
`--user` insertion of `with_upgraded_pip` are modelled with their platform
switch where the corresponding claim needs it.
-/

namespace PsbodyBuild

/-- Failure taxonomy of the script: a non-zero external command
(`subprocess.CalledProcessError` re-raised by `run`), the
`assert len(lines) == 1` in `parse_conda_info`, the `RuntimeError` of
`detect_conda_environment`, the `ValueError` of `fetch_version_and_links`,
and the `assert tags == accel_tags` in its scan loop. -/
inductive Failure where
  | executionFailure (cmd : List String)
  | ambiguousOutput (key : String) (count : Nat)
  | environmentMissing
  | noCompatibleBinary
  | assertionFailed (msg : String)
  deriving Repr, DecidableEq

/-- Observable side effects of a run, in order of occurrence: external
commands (`run([...])`), directory changes (`os.chdir`), recursive removals
(`rmtree_git_repo` / `shutil.rmtree`), file creation (`open(name, "w")`),
file removal (`os.unlink`), and the launch of a re-invoked stage via the
trampoline script. -/
inductive Event where
  | cmd (args : List String)
  | chdir (dir : String)
  | chdirUp
  | rmtree (dir : String)
  | writeFile (name : String)
  | unlink (name : String)
  | spawnStage (stage : String)
  deriving Repr, DecidableEq

/-- Content of the well-known checkout directory: left over from an earlier
run (`stale`), freshly cloned (`cloned`), or cloned with the pinned revision
checked out (`checkedOut`). -/
inductive DirState where
  | stale
  | cloned (url : String)
  | checkedOut (url : String) (rev : String)
  deriving Repr, DecidableEq

/-- The filesystem state the script manipulates: whether the well-known
checkout directory exists (and what it holds), whether the well-known
trampoline script file exists, and the working-directory stack (`chdir dir`
pushes, `chdir ".."` pops). -/
structure FS where
  repoDir : Option DirState
  trampoline : Bool
  cwd : List String
  deriving Repr, DecidableEq

/-- Result of running a piece of the script: final filesystem, the trace of
events it performed, and either a value or the first failure raised.  The
filesystem and trace are kept on the error path because Python exceptions do
not undo side effects. -/
inductive Res (α : Type) where
  | ok (fs : FS) (tr : List Event) (a : α)
  | err (fs : FS) (tr : List Event) (e : Failure)
  deriving Repr, DecidableEq

/-- Final filesystem of a result. -/
def Res.fsOf {α : Type} : Res α → FS
  | .ok fs _ _ => fs
  | .err fs _ _ => fs

/-- Event trace of a result. -/
def Res.trOf {α : Type} : Res α → List Event
  | .ok _ tr _ => tr
  | .err _ tr _ => tr

/-- Whether the result is a success. -/
def Res.isOk {α : Type} : Res α → Bool
  | .ok _ _ _ => true
  | .err _ _ _ => false

/-- Prefix a result's trace with earlier events. -/
def Res.prependTr {α : Type} (tr : List Event) : Res α → Res α
  | .ok fs tr' a => .ok fs (tr ++ tr') a
  | .err fs tr' e => .err fs (tr ++ tr') e

/-- Sequencing: run `r`; on success continue with `f` from the reached
filesystem, accumulating traces; a failure short-circuits. -/
def Res.bind {α β : Type} (r : Res α) (f : FS → α → Res β) : Res β :=
  match r with
  | .ok fs tr a => Res.prependTr tr (f fs a)
  | .err fs tr e => .err fs tr e

@[simp]
theorem Res.prependTr_ok {α : Type} (tr fs tr' : _) (a : α) :
    Res.prependTr tr (.ok fs tr' a) = .ok fs (tr ++ tr') a := rfl

@[simp]
theorem Res.prependTr_err {α : Type} (tr fs tr' e) :
    Res.prependTr (α := α) tr (.err fs tr' e) = .err fs (tr ++ tr') e := rfl

@[simp]
theorem Res.prependTr_nil {α : Type} (r : Res α) : Res.prependTr [] r = r := by
  cases r <;> simp [Res.prependTr]

@[simp]
theorem Res.prependTr_prependTr {α : Type} (tr₁ tr₂ : List Event) (r : Res α) :
    Res.prependTr tr₁ (Res.prependTr tr₂ r) = Res.prependTr (tr₁ ++ tr₂) r := by
  cases r <;> simp [Res.prependTr]

@[simp]
theorem Res.bind_ok {α β : Type} (fs tr) (a : α) (f : FS → α → Res β) :
    Res.bind (.ok fs tr a) f = Res.prependTr tr (f fs a) := rfl

@[simp]
theorem Res.bind_err {α β : Type} (fs tr e) (f : FS → α → Res β) :
    Res.bind (α := α) (.err fs tr e) f = .err fs tr e := rfl

@[simp]
theorem Res.fsOf_ok {α : Type} (fs tr) (a : α) : Res.fsOf (.ok fs tr a) = fs := rfl

@[simp]
theorem Res.fsOf_err {α : Type} (fs tr e) : Res.fsOf (α := α) (.err fs tr e) = fs := rfl

@[simp]
theorem Res.trOf_ok {α : Type} (fs tr) (a : α) : Res.trOf (.ok fs tr a) = tr := rfl

@[simp]
theorem Res.trOf_err {α : Type} (fs tr e) : Res.trOf (α := α) (.err fs tr e) = tr := rfl

@[simp]
theorem Res.isOk_ok {α : Type} (fs tr) (a : α) : Res.isOk (.ok fs tr a) = true := rfl

@[simp]
theorem Res.isOk_err {α : Type} (fs tr e) : Res.isOk (α := α) (.err fs tr e) = false := rfl

@[simp]
theorem Res.fsOf_prependTr {α : Type} (tr : List Event) (r : Res α) :
    (Res.prependTr tr r).fsOf = r.fsOf := by
  cases r <;> rfl

@[simp]
theorem Res.trOf_prependTr {α : Type} (tr : List Event) (r : Res α) :
    (Res.prependTr tr r).trOf = tr ++ r.trOf := by
  cases r <;> rfl

@[simp]
theorem Res.isOk_prependTr {α : Type} (tr : List Event) (r : Res α) :
    (Res.prependTr tr r).isOk = r.isOk := by
  cases r <;> rfl

/-! ### String helpers used by the conda-output parser -/

/-- Whether `pat` occurs at the start of `s` (character lists). -/
def leadsWith : List Char → List Char → Bool
  | [], _ => true
  | _ :: _, [] => false
  | p :: ps, c :: cs => p = c && leadsWith ps cs

/-- Python `str.strip()`: remove leading and trailing whitespace. -/
def pyStrip (s : String) : String :=
  String.mk
    (((s.toList.dropWhile Char.isWhitespace).reverse.dropWhile Char.isWhitespace).reverse)

/-- Python `s.endswith(suf)`. -/
def pyEndsWith (s suf : String) : Bool :=
  leadsWith suf.toList.reverse s.toList.reverse

/-- Drop an exact literal from the front of a character list; `none` when the
list does not start with the literal. -/
def dropLiteral : List Char → List Char → Option (List Char)
  | [], s => some s
  | _ :: _, [] => none
  | p :: ps, c :: cs => if c = p then dropLiteral ps cs else none

/-- Embedding of `re.match("%s +: +(?P<value>.*)" % key, line)`: the line must
start with the literal `key`, then one or more spaces, then `:`, then one or
more spaces; the value group is the rest of the line. -/
def matchKeyValue (key : String) (line : String) : Option String :=
  match dropLiteral key.toList line.toList with
  | none => none
  | some rest =>
    match rest with
    | ' ' :: rest₁ =>
      match List.dropWhile (fun c => c = ' ') rest₁ with
      | ':' :: rest₂ =>
        match rest₂ with
        | ' ' :: rest₃ => some (String.mk (List.dropWhile (fun c => c = ' ') rest₃))
        | _ => none
      | _ => none
    | _ => none

/-- The pure core of `parse_conda_info`: given the lines of `conda info`'s
output, keep the lines matching the labeled-value pattern for `key` (each line
stripped before matching), require exactly one, and return its stripped value
group.  The `assert len(lines) == 1` is the `ambiguousOutput` failure. -/
def parse_conda_info_lines (key : String) (output : List String) : Except Failure String :=
  let ms := output.filterMap (fun line => matchKeyValue key (pyStrip line))
  match ms with
  | [v] => .ok (pyStrip v)
  | l => .error (.ambiguousOutput key l.length)

/-! ### Run configuration and external-command behavior -/

/-- The command-line arguments parsed by `install_script_main`
(`--no-cleanup`, `--verbose`, `--yes`, and the internal `--environment` stage
marker, which defaults to `"prepare_environment"`). -/
structure Args where
  noCleanup : Bool
  verbose : Bool
  yes : Bool
  environment : String
  deriving Repr, DecidableEq

/-- Outcomes of the external commands a pipeline run issues.  `condaInfoOk`
and `condaInfoLines` fix the result of `conda info` (assumed stable across
its invocations within one run); the remaining booleans say whether the
corresponding external command exits zero. -/
structure Behavior where
  condaInfoOk : Bool
  condaInfoLines : List String
  prepCloneOk : Bool
  prepCheckoutOk : Bool
  condaDepsOk : Bool
  boostOk : Bool
  pyopenglOk : Bool
  chmodOk : Bool
  pipUpgradeOk : Bool
  pipReqOk : Bool
  pipSetupOk : Bool
  valCloneOk : Bool
  valCheckoutOk : Bool
  gitDataOk : Bool
  testsOk : Bool
  condaPrefixDir : String
  deriving Repr, DecidableEq

/-- A single `run([...])` call in the pipeline model: emits the command event
and raises `executionFailure` exactly when the command exits non-zero. -/
def runB (okFlag : Bool) (cmd : List String) (fs : FS) : Res Unit :=
  if okFlag then .ok fs [.cmd cmd] () else .err fs [.cmd cmd] (.executionFailure cmd)

/-- Model of `run(["conda", "info"], stdout=subprocess.PIPE)` followed by decoding and
splitting its output into lines. -/
def run_conda_info (B : Behavior) (fs : FS) : Res (List String) :=
  if B.condaInfoOk then .ok fs [.cmd ["conda", "info"]] B.condaInfoLines
  else .err fs [.cmd ["conda", "info"]] (.executionFailure ["conda", "info"])

/-- Embedding of `parse_conda_info(key)`: run `conda info`, then extract the single
labeled value for `key` from its output. -/
def parse_conda_info (B : Behavior) (key : String) (fs : FS) : Res String :=
  (run_conda_info B fs).bind (fun fs₁ outputLines =>
    match parse_conda_info_lines key outputLines with
    | .ok v => .ok fs₁ [] v
    | .error e => .err fs₁ [] e)

/-- Embedding of `detect_conda_environment()`: read the `active environment` value; the
name `"None"` means no environment is active and raises the fatal
`RuntimeError` (`environmentMissing`); otherwise the name is returned. -/
def detect_conda_environment (B : Behavior) (fs : FS) : Res String :=
  (parse_conda_info B "active environment" fs).bind (fun fs₁ env_name =>
    if env_name = "None" then .err fs₁ [] .environmentMissing
    else .ok fs₁ [] env_name)

/-- Python `s[:s.rfind(c)]`: cut at the last occurrence of `c`; when `c` does
not occur, `rfind` returns `-1` and the slice drops the final character. -/
def takeBeforeLast (c : Char) (s : String) : String :=
  let cs := s.toList
  match (cs.reverse.findIdx? (fun x => x = c)) with
  | some j => String.mk (cs.take (cs.length - 1 - j))
  | none => String.mk (cs.take (cs.length - 1))

/-- The base-folder normalization of `detect_conda_activate_script`: when the
reported base folder ends with `)` (e.g. `/opt/conda (writable)`), cut at the
last `(`; then strip. -/
def conda_base_folder (raw : String) : String :=
  pyStrip (if pyEndsWith raw ")" then takeBeforeLast '(' raw else raw)

/-- Embedding of `detect_conda_activate_script()` on POSIX: read the `base environment`
value from `conda info`, normalize it, and join with `bin/activate`. -/
def detect_conda_activate_script (B : Behavior) (fs : FS) : Res String :=
  (parse_conda_info B "base environment" fs).bind (fun fs₁ base_raw =>
    .ok fs₁ [] (conda_base_folder base_raw ++ "/bin/activate"))

/-! ### Scoped resource helpers -/

/-- The `finally` block of `inside_git_repository`: `os.chdir("..")` always,
then `rmtree_git_repo(dir_name)` when cleanup is enabled.  It runs on normal
completion of the scope body and when the body raises; the raised failure is
re-propagated afterwards. -/
def teardown_git_scope (dir_name : String) (cleanup : Bool) (r : Res Unit) : Res Unit :=
  match r with
  | .ok fs tr a =>
    let fs₁ : FS := { fs with cwd := fs.cwd.tail }
    if cleanup then .ok { fs₁ with repoDir := none } (tr ++ [.chdirUp, .rmtree dir_name]) a
    else .ok fs₁ (tr ++ [.chdirUp]) a
  | .err fs tr e =>
    let fs₁ : FS := { fs with cwd := fs.cwd.tail }
    if cleanup then .err { fs₁ with repoDir := none } (tr ++ [.chdirUp, .rmtree dir_name]) e
    else .err fs₁ (tr ++ [.chdirUp]) e

/-- Embedding of `inside_git_repository(repo_url, repo_hash, dir_name, cleanup)`.
A pre-existing directory of the well-known name is removed first; then
`git clone`, `os.chdir(dir_name)`, `git checkout <hash or "">` run.  Only the
`yield` sits inside the `try`, so a failure of the clone or of the revision
checkout propagates without running the `finally` block; a clone failure
leaves no directory behind (git removes its partial clone), while a checkout
failure leaves the cloned directory in place with the working directory still
inside it.  The body's exit — normal or failing — runs the `finally` block
(`teardown_git_scope`). -/
def inside_git_repository (cloneOk checkoutOk : Bool) (repo_url : String)
    (repo_hash : Option String) (dir_name : String) (cleanup : Bool)
    (body : FS → Res Unit) (fs : FS) : Res Unit :=
  let pre : FS × List Event :=
    match fs.repoDir with
    | some _ => ({ fs with repoDir := none }, [.rmtree dir_name])
    | none => (fs, [])
  let cloneCmd := ["git", "clone", repo_url, dir_name]
  let checkoutCmd := ["git", "checkout", repo_hash.getD ""]
  Res.prependTr pre.2
    (if cloneOk then
      let fs₁ : FS := { pre.1 with repoDir := some (.cloned repo_url) }
      let fs₂ : FS := { fs₁ with cwd := dir_name :: fs₁.cwd }
      Res.prependTr [.cmd cloneCmd, .chdir dir_name]
        (if checkoutOk then
          let fs₃ : FS := { fs₂ with repoDir := some (.checkedOut repo_url (repo_hash.getD "")) }
          Res.prependTr [.cmd checkoutCmd] (teardown_git_scope dir_name cleanup (body fs₃))
        else
          .err fs₂ [.cmd checkoutCmd] (.executionFailure checkoutCmd))
    else
      .err pre.1 [.cmd cloneCmd] (.executionFailure cloneCmd))

/-- The `finally` block of `run_with_reactivated_environment`: when cleanup is
enabled and the trampoline script exists, `os.unlink` it. -/
def trampoline_finally (script_name : String) (cleanup : Bool) (r : Res Unit) : Res Unit :=
  match r with
  | .ok fs tr a =>
    if cleanup && fs.trampoline then
      .ok { fs with trampoline := false } (tr ++ [.unlink script_name]) a
    else .ok fs tr a
  | .err fs tr e =>
    if cleanup && fs.trampoline then
      .err { fs with trampoline := false } (tr ++ [.unlink script_name]) e
    else .err fs tr e

/-- Embedding of `run_with_reactivated_environment(env_name, commands, cleanup)` on POSIX.
Inside the `try`: `open(script_name, "w")` creates the trampoline file, the
template is filled (which calls `detect_conda_activate_script`, i.e. runs
`conda info` again), `chmod +x` runs, and the trampoline is executed with
inherited streams — modelled as launching the re-invoked stage `child` (the
re-invocation carries `--environment <stage>`, so the child process dispatches
to that stage's branch of `install_script_main`).  A non-zero child exit is
the trampoline command's `CalledProcessError` in this process.  The `finally`
block unlinks the script when cleanup is enabled. -/
def run_with_reactivated_environment (B : Behavior) (stage : String)
    (child : FS → Res Unit) (cleanup : Bool) (fs : FS) : Res Unit :=
  let script_name := ".bqinstall.trampoline.sh"
  let fs₁ : FS := { fs with trampoline := true }
  Res.prependTr [.writeFile script_name]
    (trampoline_finally script_name cleanup
      ((detect_conda_activate_script B fs₁).bind (fun fs₂ _script =>
        (runB B.chmodOk ["chmod", "+x", script_name] fs₂).bind (fun fs₃ _ =>
          Res.prependTr [.spawnStage stage]
            (match child fs₃ with
             | .ok fs₄ tr _ => .ok fs₄ tr ()
             | .err fs₄ tr _ => .err fs₄ tr (.executionFailure ["./" ++ script_name]))))))

/-- The helper `enhance_on_win` inside `with_upgraded_pip`: on Windows,
`lst.insert(-2, "--user")` inserts `--user` before the second-to-last
element; on POSIX the list is unchanged. -/
def enhance_on_win (win : Bool) (lst : List String) : List String :=
  if win then lst.take (lst.length - 2) ++ "--user" :: lst.drop (lst.length - 2) else lst

/-- Embedding of `with_upgraded_pip()`: run the pip self-upgrade command, then yield to the
body.  There is no code after the `yield`: the scope records no prior pip
version, parses no listing output, and reinstalls nothing on exit. -/
def with_upgraded_pip {α : Type} (win : Bool) (upgradeOk : Bool)
    (body : FS → Res α) (fs : FS) : Res α :=
  (runB upgradeOk (enhance_on_win win ["python", "-m", "pip", "install", "--upgrade", "pip"]) fs).bind
    (fun fs₁ _ => body fs₁)

/-! ### The staged execution driver and its psbody instantiation -/

/-- Embedding of `install_script_main(package_name, prepare_environment, execute_build,
validate_build)` after argument parsing, POSIX branch.  The
`"prepare_environment"` stage detects the conda environment, enters the
prepare scope, re-invokes itself with `--environment execute_build` through a
trampoline while inside the scope, and after the scope exits re-invokes
itself with `--environment validate_build`; the `"execute_build"` and
`"validate_build"` stage markers dispatch directly to the corresponding
function; any other marker matches no branch and the function returns. -/
def install_script_main (B : Behavior) (args : Args)
    (prepare_environment : (FS → Res Unit) → FS → Res Unit)
    (execute_build : FS → Res Unit)
    (validate_build : FS → Res Unit)
    (fs : FS) : Res Unit :=
  if args.environment = "prepare_environment" then
    (detect_conda_environment B fs).bind (fun fs₁ _env_name =>
      (prepare_environment
          (fun fs₂ =>
            run_with_reactivated_environment B "execute_build" execute_build
              (!args.noCleanup) fs₂)
          fs₁).bind
        (fun fs₃ _ =>
          run_with_reactivated_environment B "validate_build" validate_build
            (!args.noCleanup) fs₃))
  else if args.environment = "execute_build" then
    execute_build fs
  else if args.environment = "validate_build" then
    validate_build fs
  else
    .ok fs [] ()

/-- The pinned repository of the psbody instantiation. -/
def REPO_URL : String := "https://github.com/johnbanq/mesh.git"

/-- The pinned revision of the psbody instantiation. -/
def REPO_REVISION : String := "0d876727d5184161ed085bd3ef74967441b0a0e8"

/-- The well-known checkout directory name of the psbody instantiation. -/
def REPO_DIR : String := ".bqinstall.mpi-is.mesh"

/-- Embedding of `install_compiling_dependencies()`: `conda install` of the compiler
toolchain and setuptools, then yield; intentionally no teardown. -/
def install_compiling_dependencies (B : Behavior) (body : FS → Res Unit) (fs : FS) : Res Unit :=
  (runB B.condaDepsOk ["conda", "install", "-y", "-c", "conda-forge", "cxx-compiler", "setuptools"] fs).bind
    (fun fs₁ _ => body fs₁)

/-- Embedding of `install_boost()`. -/
def install_boost (B : Behavior) (fs : FS) : Res Unit :=
  runB B.boostOk ["conda", "install", "-y", "boost"] fs

/-- Embedding of `install_pyopengl()` on POSIX: a plain index install. -/
def install_pyopengl_posix (B : Behavior) (fs : FS) : Res Unit :=
  runB B.pyopenglOk ["pip", "install", "pyopengl"] fs

/-- Embedding of `psbody_prepare_environment()`: the pinned checkout scope, inside it the
compiling-dependency scope, boost, pyopengl, then yield to the driver's
block. -/
def psbody_prepare_environment (B : Behavior) (args : Args)
    (body : FS → Res Unit) (fs : FS) : Res Unit :=
  inside_git_repository B.prepCloneOk B.prepCheckoutOk REPO_URL (some REPO_REVISION) REPO_DIR
    (!args.noCleanup)
    (fun fs₁ =>
      install_compiling_dependencies B
        (fun fs₂ =>
          (install_boost B fs₂).bind (fun fs₃ _ =>
            (install_pyopengl_posix B fs₃).bind (fun fs₄ _ => body fs₄)))
        fs₁)
    fs

/-- Embedding of `psbody_execute_build()` on POSIX: requirements install inside the
upgraded-pip scope, then the `setup.py` install with the boost include path
under `CONDA_PREFIX`. -/
def psbody_execute_build (B : Behavior) (fs : FS) : Res Unit :=
  (with_upgraded_pip false B.pipUpgradeOk
      (fun fs₁ => runB B.pipReqOk ["pip", "install", "--upgrade", "-r", "requirements.txt"] fs₁)
      fs).bind
    (fun fs₂ _ =>
      runB B.pipSetupOk
        ["pip", "install", "--no-deps",
         "--install-option=--boost-location=" ++ B.condaPrefixDir ++ "/include",
         "--verbose", "--no-cache-dir", "."] fs₂)

/-- Embedding of `psbody_validate_build()` on POSIX: a fresh pinned checkout scope; inside
it, remove the `data` fixture directory, restore it from git, and run the
tests. -/
def psbody_validate_build (B : Behavior) (args : Args) (fs : FS) : Res Unit :=
  inside_git_repository B.valCloneOk B.valCheckoutOk REPO_URL (some REPO_REVISION) REPO_DIR
    (!args.noCleanup)
    (fun fs₁ =>
      (Res.prependTr [.rmtree "data"] (runB B.gitDataOk ["git", "checkout", "data"] fs₁)).bind
        (fun fs₂ _ => runB B.testsOk ["make", "tests"] fs₂))
    fs

/-- The whole program: `install_script_main` applied to the psbody stage
functions, as in the `__main__` block. -/
def psbody_pipeline (B : Behavior) (args : Args) (fs : FS) : Res Unit :=
  install_script_main B args (psbody_prepare_environment B args) (psbody_execute_build B)
    (psbody_validate_build B args) fs

/-! ### Windows wheel resolution (`fetch_version_and_links`) -/

/-- Python `str.split(sep)` for a one-character separator. -/
def splitCharAux (c : Char) : List Char → List Char → List String
  | [], acc => [String.mk acc.reverse]
  | x :: xs, acc =>
    if x = c then String.mk acc.reverse :: splitCharAux c xs []
    else splitCharAux c xs (x :: acc)

/-- Split a string on every occurrence of a character. -/
def splitChar (c : Char) (s : String) : List String := splitCharAux c s.toList []

/-- Whether `pat` occurs anywhere in `s` (character lists). -/
def hasInfixChars (pat : List Char) : List Char → Bool
  | [] => pat.isEmpty
  | c :: cs => leadsWith pat (c :: cs) || hasInfixChars pat cs

/-- Python `pat in s` for strings. -/
def strContains (s pat : String) : Bool := hasInfixChars pat.toList s.toList

/-- Python `s.replace(a, b)` for one-character `a` and `b`. -/
def replaceChar (a b : Char) (s : String) : String :=
  String.mk (s.toList.map (fun c => if c = a then b else c))

/-- Python `fullname[:-len(".whl")]` — drop the extension. -/
def wheelBase (fullname : String) : String :=
  String.mk (fullname.toList.take (fullname.toList.length - 4))

/-- Python `fullname[:-len(".whl")].split("‑")` — the wheel's name, version and tag
fields, separated by the non-breaking hyphen U+2011 used in the table. -/
def wheelParts (fullname : String) : List String := splitChar '‑' (wheelBase fullname)

/-- The `version` field of a wheel filename (second split field). -/
def wheelVersion (fullname : String) : String := (wheelParts fullname).getD 1 ""

/-- The tag tuple of a wheel filename (`*tags`: all fields after name and
version). -/
def wheelTags (fullname : String) : List String := (wheelParts fullname).drop 2

/-- The hardcoded, version-ordered `pyopengl_versions` table of
(library wheel, accelerator wheel) filename pairs, verbatim from the
source. -/
def pyopengl_versions : List (String × String) := [
  ("PyOpenGL‑3.1.5‑pp37‑pypy37_pp73‑win_amd64.whl", "PyOpenGL_accelerate‑3.1.5‑pp37‑pypy37_pp73‑win_amd64.whl"),
  ("PyOpenGL‑3.1.5‑cp310‑cp310‑win_amd64.whl", "PyOpenGL_accelerate‑3.1.5‑cp310‑cp310‑win_amd64.whl"),
  ("PyOpenGL‑3.1.5‑cp310‑cp310‑win32.whl", "PyOpenGL_accelerate‑3.1.5‑cp310‑cp310‑win32.whl"),
  ("PyOpenGL‑3.1.5‑cp39‑cp39‑win_amd64.whl", "PyOpenGL_accelerate‑3.1.5‑cp39‑cp39‑win_amd64.whl"),
  ("PyOpenGL‑3.1.5‑cp39‑cp39‑win32.whl", "PyOpenGL_accelerate‑3.1.5‑cp39‑cp39‑win32.whl"),
  ("PyOpenGL‑3.1.5‑cp38‑cp38‑win_amd64.whl", "PyOpenGL_accelerate‑3.1.5‑cp38‑cp38‑win_amd64.whl"),
  ("PyOpenGL‑3.1.5‑cp38‑cp38‑win32.whl", "PyOpenGL_accelerate‑3.1.5‑cp38‑cp38‑win32.whl"),
  ("PyOpenGL‑3.1.5‑cp37‑cp37m‑win_amd64.whl", "PyOpenGL_accelerate‑3.1.5‑cp37‑cp37m‑win_amd64.whl"),
  ("PyOpenGL‑3.1.5‑cp37‑cp37m‑win32.whl", "PyOpenGL_accelerate‑3.1.5‑cp37‑cp37m‑win32.whl"),
  ("PyOpenGL‑3.1.5‑cp36‑cp36m‑win_amd64.whl", "PyOpenGL_accelerate‑3.1.5‑cp36‑cp36m‑win_amd64.whl"),
  ("PyOpenGL‑3.1.5‑cp36‑cp36m‑win32.whl", "PyOpenGL_accelerate‑3.1.5‑cp36‑cp36m‑win32.whl"),
  ("PyOpenGL‑3.1.5‑cp35‑cp35m‑win_amd64.whl", "PyOpenGL_accelerate‑3.1.5‑cp35‑cp35m‑win_amd64.whl"),
  ("PyOpenGL‑3.1.5‑cp35‑cp35m‑win32.whl", "PyOpenGL_accelerate‑3.1.5‑cp35‑cp35m‑win32.whl"),
  ("PyOpenGL‑3.1.5‑cp27‑cp27m‑win_amd64.whl", "PyOpenGL_accelerate‑3.1.5‑cp27‑cp27m‑win_amd64.whl"),
  ("PyOpenGL‑3.1.5‑cp27‑cp27m‑win32.whl", "PyOpenGL_accelerate‑3.1.5‑cp27‑cp27m‑win32.whl"),
  ("PyOpenGL‑3.1.3b2‑cp34‑cp34m‑win_amd64.whl", "PyOpenGL_accelerate‑3.1.3b2‑cp34‑cp34m‑win_amd64.whl"),
  ("PyOpenGL‑3.1.3b2‑cp34‑cp34m‑win32.whl", "PyOpenGL_accelerate‑3.1.3b2‑cp34‑cp34m‑win32.whl")]

/-- The `for ... else` scan of `fetch_version_and_links`: per entry, the
`assert tags == accel_tags` first, then the first-match membership test
against the supported-tag set; the `else` clause of the exhausted loop raises
`ValueError` (`noCompatibleBinary`). -/
def scanVersions (supported : List (List String)) :
    List (String × String) → Except Failure (String × String × String)
  | [] => .error .noCompatibleBinary
  | (fullname, accel_fullname) :: rest =>
    if wheelTags fullname = wheelTags accel_fullname then
      if supported.contains (wheelTags fullname) then
        .ok (wheelVersion fullname, fullname, accel_fullname)
      else scanVersions supported rest
    else .error (.assertionFailed "tags == accel_tags")

/-- The download-URL derivation: a base path that varies only for the cp36
and cp35 interpreter tags (tested on the library wheel's filename), applied
to both filenames with the non-breaking hyphens replaced by ASCII hyphens. -/
def download_links (fullname accel_fullname : String) : String × String :=
  let download_template :=
    if strContains fullname "‑cp36‑" then "https://download.lfd.uci.edu/pythonlibs/w6tyco5e/cp36/"
    else if strContains fullname "‑cp35‑" then "https://download.lfd.uci.edu/pythonlibs/w6tyco5e/cp35/"
    else "https://download.lfd.uci.edu/pythonlibs/w6tyco5e/"
  (download_template ++ replaceChar '‑' '-' fullname,
   download_template ++ replaceChar '‑' '-' accel_fullname)

/-- Embedding of `fetch_version_and_links()` given the supported-tag set (the set built
from `get_compatible_tags()`): scan the hardcoded table, then derive the two
download links of the selected pair. -/
def fetch_version_and_links (supported : List (List String)) :
    Except Failure (String × String × String) :=
  match scanVersions supported pyopengl_versions with
  | .error e => .error e
  | .ok (version, fullname, accel_fullname) =>
    .ok (version, download_links fullname accel_fullname)

/-! ### The command runner (`run`) -/

/-- A stream configuration of `subprocess`: `subprocess.PIPE` (capture) or
`None` (inherit). -/
inductive StreamMode where
  | pipe
  | inherit
  deriving Repr, DecidableEq

/-- The observable outcome of one execution of an external command. -/
structure CmdResult where
  exitCode : Nat
  stdoutData : String
  stderrData : String
  deriving Repr, DecidableEq

/-- Model of `subprocess.CalledProcessError` as re-raised by `run`: command, exit
status, and the captured streams (`none` when a stream was inherited). -/
inductive RunError where
  | calledProcessError (cmd : List String) (returncode : Nat) (stdout stderr : Option String)
  deriving Repr, DecidableEq

/-- Model of `subprocess.CompletedProcess` as returned by `run` on success. -/
structure CompletedProcess where
  args : List String
  returncode : Nat
  stdout : Option String
  stderr : Option String
  deriving Repr, DecidableEq

instance {ε α : Type} [DecidableEq ε] [DecidableEq α] : DecidableEq (Except ε α) := fun a b =>
  match a, b with
  | .ok x, .ok y =>
    if h : x = y then isTrue (by rw [h]) else isFalse (by intro hh; cases hh; exact h rfl)
  | .error x, .error y =>
    if h : x = y then isTrue (by rw [h]) else isFalse (by intro hh; cases hh; exact h rfl)
  | .ok _, .error _ => isFalse (by intro hh; cases hh)
  | .error _, .ok _ => isFalse (by intro hh; cases hh)

/-- What one call of `run` produces: how many times the command was invoked,
the error-log lines emitted, whether the shell flag was forced, and the
returned value or raised error. -/
structure RunReturn where
  invoked : Nat
  logs : List String
  usedShell : Bool
  result : Except RunError CompletedProcess
  deriving Repr, DecidableEq

/-- Python `e.stdout.decode("UTF-8") if e.stdout else "None"`: an inherited stream
is `None`, and captured-but-empty bytes are falsy in Python, so both log as
the `"None"` marker. -/
def decodeOrNone : Option String → String
  | none => "None"
  | some s => if s = "" then "None" else s

/-- Embedding of `run(*args, **kwargs)`: force the shell on Windows; default the stream
configuration to capture (`PIPE`) at normal verbosity and inherit (`None`)
when the log level is `DEBUG`, with caller-passed values taking precedence;
invoke the command once with `check=True`; on non-zero exit log the command
and both streams, then re-raise. -/
def run (win debugLevel : Bool) (stdoutArg stderrArg : Option StreamMode)
    (cmd : List String) (attempts : Nat → CmdResult) : RunReturn :=
  let normal_pipe_or_not : StreamMode := if debugLevel then .inherit else .pipe
  let stdoutMode := stdoutArg.getD normal_pipe_or_not
  let stderrMode := stderrArg.getD normal_pipe_or_not
  let res := attempts 0
  let capturedOut : Option String := if stdoutMode = .pipe then some res.stdoutData else none
  let capturedErr : Option String := if stderrMode = .pipe then some res.stderrData else none
  if res.exitCode = 0 then
    { invoked := 1, logs := [], usedShell := win,
      result := .ok ⟨cmd, res.exitCode, capturedOut, capturedErr⟩ }
  else
    { invoked := 1,
      logs := ["error while executing: " ++ toString cmd,
               "stdout: \n" ++ decodeOrNone capturedOut,
               "stderr: \n" ++ decodeOrNone capturedErr],
      usedShell := win,
      result := .error (.calledProcessError cmd res.exitCode capturedOut capturedErr) }

/-! ### Concrete fixtures used by witnesses and counterexamples -/

/-- A plausible `conda info` output fragment: one active-environment line and
one base-environment line. -/
def sampleLines : List String :=
  ["active environment : base", "base environment : /opt/conda (writable)"]

/-- A behavior where every external command succeeds. -/
def happyBehavior : Behavior :=
  { condaInfoOk := true, condaInfoLines := sampleLines,
    prepCloneOk := true, prepCheckoutOk := true, condaDepsOk := true, boostOk := true,
    pyopenglOk := true, chmodOk := true, pipUpgradeOk := true, pipReqOk := true,
    pipSetupOk := true, valCloneOk := true, valCheckoutOk := true, gitDataOk := true,
    testsOk := true, condaPrefixDir := "/opt/conda/envs/base" }

/-- The default arguments: no flags, initial stage marker. -/
def defaultArgs : Args :=
  { noCleanup := false, verbose := false, yes := false, environment := "prepare_environment" }

/-- A filesystem with no leftover artifacts, at the starting directory. -/
def cleanFS : FS := { repoDir := none, trampoline := false, cwd := [] }

/-- A scope body that does nothing. -/
def idBody : FS → Res Unit := fun fs => .ok fs [] ()

/-! ### Claim C10 -/

/-- C10: for every value of the internal `--environment` stage marker other
than the three recognized stage names, the entry point matches none of the
dispatch branches: it runs no stage body, performs no environment detection
and no re-invocation (empty event trace, unchanged filesystem), raises no
error, and returns normally — so the process exits with status 0. -/
theorem c10_unknown_stage_marker_is_noop (B : Behavior) (args : Args) (fs : FS)
    (h₁ : args.environment ≠ "prepare_environment")
    (h₂ : args.environment ≠ "execute_build")
    (h₃ : args.environment ≠ "validate_build") :
    psbody_pipeline B args fs = .ok fs [] () := by
  simp [psbody_pipeline, install_script_main, h₁, h₂, h₃]

/-- Witness for C10 at the concrete stage marker `"bogus"`. -/
theorem c10_unknown_stage_marker_is_noop_witness :
    psbody_pipeline happyBehavior
        { noCleanup := false, verbose := false, yes := false, environment := "bogus" }
        cleanFS = .ok cleanFS [] () :=
  c10_unknown_stage_marker_is_noop happyBehavior _ cleanFS
    (by decide) (by decide) (by decide)

/-! ### Claim C2 -/

/-- C2: if the name extracted from `conda info` is `"None"` (no active
environment), the `prepare_environment` stage fails with the fatal
`environmentMissing` error having performed only the read-only `conda info`
command: the filesystem is unchanged and the trace shows no clone, no
dependency install, and no trampoline-script creation. -/
theorem c2_no_environment_fails_before_mutation (B : Behavior) (args : Args) (fs : FS)
    (henv : args.environment = "prepare_environment")
    (hinfo : B.condaInfoOk = true)
    (hactive : parse_conda_info_lines "active environment" B.condaInfoLines = .ok "None") :
    psbody_pipeline B args fs = .err fs [.cmd ["conda", "info"]] .environmentMissing := by
  simp [psbody_pipeline, install_script_main, henv, detect_conda_environment,
    parse_conda_info, run_conda_info, hinfo, hactive]

/-- Witness for C2 on an output whose active-environment line reads `None`. -/
theorem c2_no_environment_fails_before_mutation_witness :
    psbody_pipeline
        { happyBehavior with
          condaInfoLines := ["active environment : None",
                             "base environment : /opt/conda (writable)"] }
        defaultArgs cleanFS =
      .err cleanFS [.cmd ["conda", "info"]] .environmentMissing :=
  c2_no_environment_fails_before_mutation _ _ _ (by decide) (by decide) (by decide)

/-! ### Claim C7 -/

/-- C7: the single-match extraction over the labeled lines of `conda info`
output returns the stripped value exactly when exactly one (stripped) line
matches the key pattern, and fails with `ambiguousOutput` — rather than
silently picking the first match — whenever the number of matching lines is
not one (zero or several). -/
theorem c7_single_match_extraction (key : String) (lines : List String) :
    (∀ m, lines.filterMap (fun l => matchKeyValue key (pyStrip l)) = [m] →
      parse_conda_info_lines key lines = .ok (pyStrip m)) ∧
    ((lines.filterMap (fun l => matchKeyValue key (pyStrip l))).length ≠ 1 →
      parse_conda_info_lines key lines =
        .error (.ambiguousOutput key
          (lines.filterMap (fun l => matchKeyValue key (pyStrip l))).length)) := by
  constructor
  · intro m hm
    simp [parse_conda_info_lines, hm]
  · intro hlen
    unfold parse_conda_info_lines
    rcases hms : lines.filterMap (fun l => matchKeyValue key (pyStrip l)) with _ | ⟨v, _ | ⟨w, rest⟩⟩
    · simp [hms]
    · exact absurd (by rw [hms] ; rfl) hlen
    · simp [hms]

/-- Witness for C7: one matching line yields its stripped value; a duplicated
matching line yields the ambiguity failure with match count 2. -/
theorem c7_single_match_extraction_witness :
    parse_conda_info_lines "active environment" ["active environment : base"] =
      .ok (pyStrip "base") ∧
    parse_conda_info_lines "active environment"
        ["active environment : base", "active environment : other"] =
      .error (.ambiguousOutput "active environment" 2) := by
  constructor
  · exact (c7_single_match_extraction "active environment"
      ["active environment : base"]).1 "base" (by decide)
  · have h := (c7_single_match_extraction "active environment"
      ["active environment : base", "active environment : other"]).2 (by decide)
    simpa using h

/-! ### Claim C5 -/

/-- C5: the checkout scope is idempotent at start — started on a filesystem
where the well-known directory already exists, it first removes that
directory and then behaves exactly (same end state, same subsequent events,
same outcome) as when started on a filesystem where the directory does not
exist. -/
theorem c5_checkout_scope_idempotent_start (cloneOk checkoutOk : Bool) (url : String)
    (hash : Option String) (dir : String) (cleanup : Bool) (body : FS → Res Unit)
    (fs : FS) (d : DirState) (hstale : fs.repoDir = some d) :
    inside_git_repository cloneOk checkoutOk url hash dir cleanup body fs =
      Res.prependTr [.rmtree dir]
        (inside_git_repository cloneOk checkoutOk url hash dir cleanup body
          { fs with repoDir := none }) := by
  simp [inside_git_repository, hstale]

/-- Witness for C5 at a concrete stale filesystem with the psbody checkout
parameters. -/
theorem c5_checkout_scope_idempotent_start_witness :
    inside_git_repository true true REPO_URL (some REPO_REVISION) REPO_DIR true idBody
        { repoDir := some .stale, trampoline := false, cwd := [] } =
      Res.prependTr [.rmtree REPO_DIR]
        (inside_git_repository true true REPO_URL (some REPO_REVISION) REPO_DIR true idBody
          { repoDir := none, trampoline := false, cwd := [] }) :=
  c5_checkout_scope_idempotent_start true true REPO_URL (some REPO_REVISION) REPO_DIR true
    idBody _ .stale rfl

/-! ### Claim C6 -/

/-- C6 counterexample: the claim asserts the cleanup also runs when
acquisition itself fails.  It does not: with cleanup enabled, when the clone
succeeds but the pinned-revision checkout command fails, the scope propagates
the failure while the working directory is still inside the checkout
directory and the cloned directory is left on disk — the clone and checkout
run before the `try`, so the `finally` block never executes. -/
theorem c6_counterexample :
    (inside_git_repository true false REPO_URL (some REPO_REVISION) REPO_DIR true idBody
        cleanFS).isOk = false ∧
    (inside_git_repository true false REPO_URL (some REPO_REVISION) REPO_DIR true idBody
        cleanFS).fsOf.cwd = [REPO_DIR] ∧
    (inside_git_repository true false REPO_URL (some REPO_REVISION) REPO_DIR true idBody
        cleanFS).fsOf.repoDir = some (.cloned REPO_URL) := by
  refine ⟨rfl, rfl, rfl⟩

/-- C6 (amended): on every exit path of the checkout scope *on which
acquisition completed* — normal completion of the scope body, or an error
raised by the scope body — the working directory is restored to the directory
from which the scope was entered and, unless cleanup is suppressed, the
checkout directory is recursively removed; this also holds when the clone
command itself fails (nothing was created).  When acquisition fails between
the clone and the revision checkout, the error propagates without restoring
the working directory or removing the directory. -/
theorem c6_checkout_scope_exit_paths (cloneOk : Bool) (url : String) (hash : Option String)
    (dir : String) (cleanup : Bool) (body : FS → Res Unit) (fs : FS)
    (hbody : ∀ f, ((body f).fsOf).cwd = f.cwd) :
    (inside_git_repository cloneOk true url hash dir cleanup body fs).fsOf.cwd = fs.cwd ∧
    (cleanup = true →
      (inside_git_repository cloneOk true url hash dir cleanup body fs).fsOf.repoDir = none) := by
  rcases fs with ⟨rd, tramp, cwd⟩
  cases cloneOk with
  | false =>
    rcases rd with _ | d <;>
      simp [inside_git_repository, teardown_git_scope]
  | true =>
    rcases rd with _ | d <;>
    · rcases hb : body
          { repoDir := some (.checkedOut url (hash.getD "")), trampoline := tramp,
            cwd := dir :: cwd } with
        ⟨fs₄, tr₄, a₄⟩ | ⟨fs₄, tr₄, e₄⟩ <;>
      · have hcwd := hbody
          { repoDir := some (.checkedOut url (hash.getD "")), trampoline := tramp,
            cwd := dir :: cwd }
        rw [hb] at hcwd
        cases cleanup <;>
          simp_all [inside_git_repository, teardown_git_scope]

/-- Witness for C6 (amended): body failure with cleanup enabled restores the
working directory and removes the checkout directory. -/
theorem c6_checkout_scope_exit_paths_witness :
    (inside_git_repository true true REPO_URL (some REPO_REVISION) REPO_DIR true
        (fun f => .err f [] .environmentMissing) cleanFS).fsOf.cwd = cleanFS.cwd ∧
    (inside_git_repository true true REPO_URL (some REPO_REVISION) REPO_DIR true
        (fun f => .err f [] .environmentMissing) cleanFS).fsOf.repoDir = none := by
  have h := c6_checkout_scope_exit_paths true REPO_URL (some REPO_REVISION) REPO_DIR true
    (fun f => .err f [] .environmentMissing) cleanFS (fun f => rfl)
  exact ⟨h.1, h.2 rfl⟩

/-! ### Claim C4 -/

/-- C4 counterexample: the claim asserts the upgraded-pip scope records the
installed pip version via a list command and parses it on acquisition
(failing on ambiguous output before upgrading) and reinstalls the recorded
pin on exit.  The source's `with_upgraded_pip` does none of this: acquiring
the scope around a trivial body performs exactly one external command — the
upgrade itself — then yields, and nothing runs on exit; no list command, no
parsing, no failure, no reinstall. -/
theorem c4_counterexample :
    with_upgraded_pip false true idBody cleanFS =
      .ok cleanFS [.cmd ["python", "-m", "pip", "install", "--upgrade", "pip"]] () := rfl

/-- C4 (amended): the upgraded-pip scope, on acquisition, runs exactly one
external command — the pip self-upgrade (on Windows with `--user` inserted
before the last two arguments) — and then yields; the body's result is
returned unchanged, so nothing runs on scope exit: no version is recorded, no
listing output is parsed, and no version pin is reinstalled. -/
theorem c4_upgraded_pip_scope {α : Type} (win : Bool) (body : FS → Res α) (fs : FS) :
    with_upgraded_pip win true body fs =
      Res.prependTr [.cmd (enhance_on_win win ["python", "-m", "pip", "install", "--upgrade", "pip"])]
        (body fs) := by
  simp [with_upgraded_pip, runB]

/-! ### Claim C8 -/

/-- On a table whose entries have matching library and accelerator tag
tuples, the scan loop is a plain first-match search. -/
theorem scanVersions_eq_find (supported : List (List String)) (L : List (String × String))
    (htags : ∀ e ∈ L, wheelTags e.1 = wheelTags e.2) :
    scanVersions supported L =
      match L.find? (fun e => supported.contains (wheelTags e.1)) with
      | some e => .ok (wheelVersion e.1, e.1, e.2)
      | none => .error .noCompatibleBinary := by
  induction L with
  | nil => rfl
  | cons hd tl ih =>
    rcases hd with ⟨f, a⟩
    have h1 : wheelTags f = wheelTags a := htags ⟨f, a⟩ (by simp)
    have ihtl := ih (fun e he => htags e (by simp [he]))
    by_cases hmem : supported.contains (wheelTags f) = true
    · rw [List.find?_cons_of_pos _ (by simpa using hmem)]
      show (if wheelTags f = wheelTags a then
          if supported.contains (wheelTags f) = true then
            Except.ok (wheelVersion f, f, a)
          else scanVersions supported tl
        else .error (.assertionFailed "tags == accel_tags")) = _
      rw [if_pos h1, if_pos hmem]
    · rw [List.find?_cons_of_neg _ (by simpa using hmem)]
      rw [← ihtl]
      show (if wheelTags f = wheelTags a then
          if supported.contains (wheelTags f) = true then
            Except.ok (wheelVersion f, f, a)
          else scanVersions supported tl
        else .error (.assertionFailed "tags == accel_tags")) = _
      rw [if_pos h1, if_neg hmem]

/-- C8: Windows wheel resolution is a deterministic first-match scan over the
hardcoded version-ordered table: for a fixed supported-tag set it selects the
first table entry whose embedded tag tuple is in the set (table order is the
only tie-break) and returns that entry's version together with the two
download URLs derived from its filenames; when no entry's tags are in the
set, it fails with `noCompatibleBinary`. -/
theorem c8_windows_wheel_first_match (supported : List (List String)) :
    fetch_version_and_links supported =
      match pyopengl_versions.find? (fun e => supported.contains (wheelTags e.1)) with
      | some e => .ok (wheelVersion e.1, download_links e.1 e.2)
      | none => .error .noCompatibleBinary := by
  have htags : ∀ e ∈ pyopengl_versions, wheelTags e.1 = wheelTags e.2 := by decide
  rcases hfind : pyopengl_versions.find? (fun e => supported.contains (wheelTags e.1)) with _ | e
  · rw [fetch_version_and_links, scanVersions_eq_find supported _ htags, hfind]
  · rw [fetch_version_and_links, scanVersions_eq_find supported _ htags, hfind]

/-! ### Claim C9 -/

/-- C9: with no explicit stream overrides, the command runner invokes the
command exactly once (never retrying); at normal verbosity both streams are
captured and at debug verbosity both are inherited — visible in the returned
`CompletedProcess` on zero exit with empty logs; on non-zero exit it fails
with the `CalledProcessError` carrying the command, the exit status and the
captured streams, logging the command and both streams (with the `"None"`
marker standing for a stream that was not captured) before the failure
propagates. -/
theorem c9_run_captures_and_fails (win debugLevel : Bool) (cmd : List String)
    (attempts : Nat → CmdResult) :
    (run win debugLevel none none cmd attempts).invoked = 1 ∧
    ((attempts 0).exitCode = 0 →
      run win debugLevel none none cmd attempts =
        { invoked := 1, logs := [], usedShell := win,
          result := .ok ⟨cmd, (attempts 0).exitCode,
            if debugLevel then none else some (attempts 0).stdoutData,
            if debugLevel then none else some (attempts 0).stderrData⟩ }) ∧
    ((attempts 0).exitCode ≠ 0 →
      run win debugLevel none none cmd attempts =
        { invoked := 1,
          logs := ["error while executing: " ++ toString cmd,
                   "stdout: \n" ++ decodeOrNone
                     (if debugLevel then none else some (attempts 0).stdoutData),
                   "stderr: \n" ++ decodeOrNone
                     (if debugLevel then none else some (attempts 0).stderrData)],
          usedShell := win,
          result := .error (.calledProcessError cmd (attempts 0).exitCode
            (if debugLevel then none else some (attempts 0).stdoutData)
            (if debugLevel then none else some (attempts 0).stderrData)) } ∧
      (debugLevel = true →
        decodeOrNone (if debugLevel then (none : Option String)
            else some (attempts 0).stdoutData) = "None")) := by
  refine ⟨?_, ?_, ?_⟩
  · by_cases hexit : (attempts 0).exitCode = 0 <;>
      simp [run, hexit]
  · intro hz
    cases debugLevel <;> simp [run, hz]
  · intro hnz
    refine ⟨?_, ?_⟩
    · cases debugLevel <;> simp [run, hnz]
    · intro hdbg
      subst hdbg
      rfl

/-- Witness for C9: a failing command at normal verbosity is invoked once and
raises the error carrying its captured streams. -/
theorem c9_run_captures_and_fails_witness :
    run false false none none ["make", "tests"] (fun _ => ⟨2, "out", "boom"⟩) =
      { invoked := 1,
        logs := ["error while executing: " ++ toString ["make", "tests"],
                 "stdout: \n" ++ decodeOrNone (some "out"),
                 "stderr: \n" ++ decodeOrNone (some "boom")],
        usedShell := false,
        result := .error (.calledProcessError ["make", "tests"] 2 (some "out") (some "boom")) } := by
  have h := (c9_run_captures_and_fails false false ["make", "tests"]
    (fun _ => ⟨2, "out", "boom"⟩)).2.2 (by decide)
  simpa using h.1

/-! ### Path lemmas for the prepare-stage claims -/

/-- When `conda info` succeeds and its output names an active environment
other than `None`, detection succeeds with that name. -/
theorem detect_conda_environment_ok (B : Behavior) (fs : FS) (name : String)
    (hinfo : B.condaInfoOk = true)
    (hactive : parse_conda_info_lines "active environment" B.condaInfoLines = .ok name)
    (hname : name ≠ "None") :
    detect_conda_environment B fs = .ok fs [.cmd ["conda", "info"]] name := by
  simp [detect_conda_environment, parse_conda_info, run_conda_info, hinfo, hactive, hname]

/-- When `conda info` succeeds and its output has a unique base-environment
line, activation-script detection succeeds. -/
theorem detect_conda_activate_script_ok (B : Behavior) (fs : FS) (base : String)
    (hinfo : B.condaInfoOk = true)
    (hbase : parse_conda_info_lines "base environment" B.condaInfoLines = .ok base) :
    detect_conda_activate_script B fs =
      .ok fs [.cmd ["conda", "info"]] (conda_base_folder base ++ "/bin/activate") := by
  simp [detect_conda_activate_script, parse_conda_info, run_conda_info, hinfo, hbase]

/-- When any of the three pip commands of the build stage fails, the stage
fails at that command, leaves the filesystem unchanged, and its trace
contains only command events. -/
theorem execute_build_fails (B : Behavior) (fs : FS)
    (h : B.pipUpgradeOk = false ∨ B.pipReqOk = false ∨ B.pipSetupOk = false) :
    ∃ tr e, psbody_execute_build B fs = .err fs tr e ∧
      Event.spawnStage "validate_build" ∉ tr := by
  by_cases h1 : B.pipUpgradeOk = true
  · by_cases h2 : B.pipReqOk = true
    · have h3 : B.pipSetupOk = false := by rcases h with h | h | h <;> simp_all
      refine ⟨[.cmd ["python", "-m", "pip", "install", "--upgrade", "pip"],
               .cmd ["pip", "install", "--upgrade", "-r", "requirements.txt"],
               .cmd ["pip", "install", "--no-deps",
                 "--install-option=--boost-location=" ++ B.condaPrefixDir ++ "/include",
                 "--verbose", "--no-cache-dir", "."]],
        .executionFailure ["pip", "install", "--no-deps",
          "--install-option=--boost-location=" ++ B.condaPrefixDir ++ "/include",
          "--verbose", "--no-cache-dir", "."], ?_, by simp⟩
      simp [psbody_execute_build, with_upgraded_pip, enhance_on_win, runB, h1, h2, h3]
    · have h2' : B.pipReqOk = false := by simpa using h2
      refine ⟨[.cmd ["python", "-m", "pip", "install", "--upgrade", "pip"],
               .cmd ["pip", "install", "--upgrade", "-r", "requirements.txt"]],
        .executionFailure ["pip", "install", "--upgrade", "-r", "requirements.txt"], ?_, by simp⟩
      simp [psbody_execute_build, with_upgraded_pip, enhance_on_win, runB, h1, h2']
  · have h1' : B.pipUpgradeOk = false := by simpa using h1
    refine ⟨[.cmd ["python", "-m", "pip", "install", "--upgrade", "pip"]],
        .executionFailure ["python", "-m", "pip", "install", "--upgrade", "pip"], ?_, by simp⟩
    simp [psbody_execute_build, with_upgraded_pip, enhance_on_win, runB, h1']

/-- When the trampoline's re-invoked child exits non-zero (leaving the
trampoline file in place), the re-activation wrapper writes the script, runs
`conda info` and `chmod`, launches the stage, then unlinks the script in the
`finally` block and propagates the trampoline command's failure. -/
theorem run_with_child_err (B : Behavior) (stage : String) (child : FS → Res Unit)
    (fs fs' : FS) (tr' : List Event) (e : Failure) (base : String)
    (hinfo : B.condaInfoOk = true)
    (hbase : parse_conda_info_lines "base environment" B.condaInfoLines = .ok base)
    (hchmod : B.chmodOk = true)
    (hchild : child { fs with trampoline := true } = .err fs' tr' e)
    (htr : fs'.trampoline = true) :
    run_with_reactivated_environment B stage child true fs =
      .err { fs' with trampoline := false }
        (Event.writeFile ".bqinstall.trampoline.sh" :: Event.cmd ["conda", "info"] ::
          Event.cmd ["chmod", "+x", ".bqinstall.trampoline.sh"] :: Event.spawnStage stage ::
          (tr' ++ [Event.unlink ".bqinstall.trampoline.sh"]))
        (.executionFailure ["./.bqinstall.trampoline.sh"]) := by
  simp [run_with_reactivated_environment, detect_conda_activate_script, parse_conda_info,
    run_conda_info, hinfo, hbase, runB, hchmod, hchild, trampoline_finally, htr]

/-! ### Claim C1 -/

/-- C1: in a `prepare_environment` run (detection succeeds, prepare scope is
acquired, cleanup is not suppressed), when the re-invoked `execute_build`
stage fails — any of its pip commands exits non-zero, so the trampoline
command returns non-zero — the pipeline propagates the failure and finishes
unsuccessfully (non-zero process exit), the `validate_build` re-invocation is
never launched, and the unwinding still removes both the trampoline script
and the checkout directory acquired by the prepare scope, restoring the
working directory. -/
theorem c1_build_failure_skips_validation (B : Behavior) (args : Args) (fs : FS)
    (name base : String)
    (henv : args.environment = "prepare_environment")
    (hclean : args.noCleanup = false)
    (hinfo : B.condaInfoOk = true)
    (hactive : parse_conda_info_lines "active environment" B.condaInfoLines = .ok name)
    (hname : name ≠ "None")
    (hbase : parse_conda_info_lines "base environment" B.condaInfoLines = .ok base)
    (hclone : B.prepCloneOk = true) (hco : B.prepCheckoutOk = true)
    (hdeps : B.condaDepsOk = true) (hboost : B.boostOk = true) (hgl : B.pyopenglOk = true)
    (hchmod : B.chmodOk = true)
    (hbuild : B.pipUpgradeOk = false ∨ B.pipReqOk = false ∨ B.pipSetupOk = false) :
    (psbody_pipeline B args fs).isOk = false ∧
    Event.spawnStage "validate_build" ∉ (psbody_pipeline B args fs).trOf ∧
    (psbody_pipeline B args fs).fsOf.repoDir = none ∧
    (psbody_pipeline B args fs).fsOf.trampoline = false ∧
    (psbody_pipeline B args fs).fsOf.cwd = fs.cwd := by
  rcases fs with ⟨rd, tramp, cwd⟩
  obtain ⟨tr', e', hchild, hnospawn⟩ := execute_build_fails B
    { repoDir := some (.checkedOut REPO_URL REPO_REVISION), trampoline := true,
      cwd := REPO_DIR :: cwd } hbuild
  have hdetect := detect_conda_environment_ok B ⟨rd, tramp, cwd⟩ name hinfo hactive hname
  have hrw := run_with_child_err B "execute_build" (psbody_execute_build B)
    { repoDir := some (.checkedOut REPO_URL REPO_REVISION), trampoline := tramp,
      cwd := REPO_DIR :: cwd }
    { repoDir := some (.checkedOut REPO_URL REPO_REVISION), trampoline := true,
      cwd := REPO_DIR :: cwd }
    tr' e' base hinfo hbase hchmod hchild rfl
  rcases rd with _ | d <;>
  · simp only [psbody_pipeline, install_script_main, henv, if_pos, hclean,
      Bool.not_false, hdetect, psbody_prepare_environment, inside_git_repository,
      hclone, hco, install_compiling_dependencies, install_boost, install_pyopengl_posix,
      runB, hdeps, hboost, hgl, if_true, Option.getD, teardown_git_scope,
      Res.bind_ok, Res.bind_err, Res.prependTr_ok, Res.prependTr_err,
      Res.prependTr_nil, Res.prependTr_prependTr, hrw]
    simp [hnospawn, List.tail]

/-- Witness for C1: every command succeeds except the requirements install of
the build stage. -/
theorem c1_build_failure_skips_validation_witness :
    (psbody_pipeline { happyBehavior with pipReqOk := false } defaultArgs cleanFS).isOk = false ∧
    Event.spawnStage "validate_build" ∉
      (psbody_pipeline { happyBehavior with pipReqOk := false } defaultArgs cleanFS).trOf ∧
    (psbody_pipeline { happyBehavior with pipReqOk := false } defaultArgs cleanFS).fsOf.repoDir
      = none ∧
    (psbody_pipeline { happyBehavior with pipReqOk := false } defaultArgs cleanFS).fsOf.trampoline
      = false ∧
    (psbody_pipeline { happyBehavior with pipReqOk := false } defaultArgs cleanFS).fsOf.cwd
      = cleanFS.cwd :=
  c1_build_failure_skips_validation _ _ _ "base" "/opt/conda (writable)"
    rfl rfl rfl (by decide) (by decide) (by decide)
    rfl rfl rfl rfl rfl rfl (Or.inr (Or.inl rfl))

/-! ### Cleanup-invariant machinery for claim C3 -/

/-- The trampoline part of the cleanup invariant, relative to the starting
filesystem: either the trampoline file is gone, or it is untouched and the
trace never created one. -/
def TrampSettled {α : Type} (fs : FS) (r : Res α) : Prop :=
  r.fsOf.trampoline = false ∨
    (r.fsOf.trampoline = fs.trampoline ∧
      Event.writeFile ".bqinstall.trampoline.sh" ∉ r.trOf)

/-- The checkout-directory part of the cleanup invariant, relative to the
starting filesystem: either the directory is gone, or it is untouched and the
trace never cloned into it. -/
def RepoSettled {α : Type} (fs : FS) (r : Res α) : Prop :=
  r.fsOf.repoDir = none ∨
    (r.fsOf.repoDir = fs.repoDir ∧
      Event.cmd ["git", "clone", REPO_URL, REPO_DIR] ∉ r.trOf)

theorem trampSettled_prependTr {α : Type} (fs : FS) (tr : List Event) (r : Res α)
    (h : TrampSettled fs r) (hev : Event.writeFile ".bqinstall.trampoline.sh" ∉ tr) :
    TrampSettled fs (Res.prependTr tr r) := by
  rcases h with h | ⟨h1, h2⟩
  · left ; simpa using h
  · right
    refine ⟨by simpa using h1, ?_⟩
    simp only [Res.trOf_prependTr, List.mem_append]
    push_neg
    exact ⟨hev, h2⟩

theorem repoSettled_prependTr {α : Type} (fs : FS) (tr : List Event) (r : Res α)
    (h : RepoSettled fs r) (hev : Event.cmd ["git", "clone", REPO_URL, REPO_DIR] ∉ tr) :
    RepoSettled fs (Res.prependTr tr r) := by
  rcases h with h | ⟨h1, h2⟩
  · left ; simpa using h
  · right
    refine ⟨by simpa using h1, ?_⟩
    simp only [Res.trOf_prependTr, List.mem_append]
    push_neg
    exact ⟨hev, h2⟩

theorem trampSettled_bindR {α β : Type} (fs : FS) (r : Res α) (f : FS → α → Res β)
    (h₁ : TrampSettled fs r) (h₂ : ∀ fs' a, TrampSettled fs' (f fs' a)) :
    TrampSettled fs (r.bind f) := by
  rcases r with ⟨fs₁, tr₁, a⟩ | ⟨fs₁, tr₁, e⟩
  · rcases h₂ fs₁ a with h | ⟨hp, hn⟩
    · left
      simpa using h
    · rcases h₁ with h | ⟨hp1, hn1⟩
      · left
        simp only [Res.bind_ok, Res.fsOf_prependTr]
        rw [hp]
        simpa using h
      · right
        constructor
        · simp only [Res.bind_ok, Res.fsOf_prependTr]
          rw [hp]
          simpa using hp1
        · simp only [Res.bind_ok, Res.trOf_prependTr, List.mem_append]
          push_neg
          exact ⟨by simpa using hn1, hn⟩
  · simpa [TrampSettled] using h₁

theorem repoSettled_bindR {α β : Type} (fs : FS) (r : Res α) (f : FS → α → Res β)
    (h₁ : RepoSettled fs r) (h₂ : ∀ fs' a, RepoSettled fs' (f fs' a)) :
    RepoSettled fs (r.bind f) := by
  rcases r with ⟨fs₁, tr₁, a⟩ | ⟨fs₁, tr₁, e⟩
  · rcases h₂ fs₁ a with h | ⟨hp, hn⟩
    · left
      simpa using h
    · rcases h₁ with h | ⟨hp1, hn1⟩
      · left
        simp only [Res.bind_ok, Res.fsOf_prependTr]
        rw [hp]
        simpa using h
      · right
        constructor
        · simp only [Res.bind_ok, Res.fsOf_prependTr]
          rw [hp]
          simpa using hp1
        · simp only [Res.bind_ok, Res.trOf_prependTr, List.mem_append]
          push_neg
          exact ⟨by simpa using hn1, hn⟩
  · simpa [RepoSettled] using h₁

/-- Environment detection leaves the filesystem untouched and only runs
`conda info`, whether it succeeds or fails. -/
theorem detect_conda_environment_cases (B : Behavior) (f : FS) :
    (∃ v, detect_conda_environment B f = .ok f [.cmd ["conda", "info"]] v) ∨
    (∃ e, detect_conda_environment B f = .err f [.cmd ["conda", "info"]] e) := by
  unfold detect_conda_environment parse_conda_info run_conda_info
  cases hio : B.condaInfoOk
  · simp
  · rcases hp : parse_conda_info_lines "active environment" B.condaInfoLines with e | v
    · simp [hp]
    · by_cases hv : v = "None" <;> simp [hp, hv]

/-- Activation-script detection leaves the filesystem untouched and only runs
`conda info`, whether it succeeds or fails. -/
theorem detect_conda_activate_script_cases (B : Behavior) (f : FS) :
    (∃ v, detect_conda_activate_script B f = .ok f [.cmd ["conda", "info"]] v) ∨
    (∃ e, detect_conda_activate_script B f = .err f [.cmd ["conda", "info"]] e) := by
  unfold detect_conda_activate_script parse_conda_info run_conda_info
  cases hio : B.condaInfoOk
  · simp
  · rcases hp : parse_conda_info_lines "base environment" B.condaInfoLines with e | v
    · simp [hp]
    · simp [hp]

/-- The build stage only issues pip commands: the filesystem is returned
unchanged, and the trace contains neither a trampoline-file creation nor the
well-known clone command. -/
theorem execute_build_frame (B : Behavior) (fs : FS) :
    (psbody_execute_build B fs).fsOf = fs ∧
    Event.writeFile ".bqinstall.trampoline.sh" ∉ (psbody_execute_build B fs).trOf ∧
    Event.cmd ["git", "clone", REPO_URL, REPO_DIR] ∉ (psbody_execute_build B fs).trOf := by
  by_cases h1 : B.pipUpgradeOk = true <;>
    by_cases h2 : B.pipReqOk = true <;>
      by_cases h3 : B.pipSetupOk = true <;>
        simp [psbody_execute_build, with_upgraded_pip, enhance_on_win, runB, h1, h2, h3, REPO_URL]

/-- The validate-stage scope body (fixture removal, fixture restore, tests)
keeps the trampoline flag and the checkout-directory slot, and emits no
trampoline-file creation and no clone command. -/
theorem validate_body_frame (B : Behavior) (fs : FS) :
    ((Res.prependTr [.rmtree "data"] (runB B.gitDataOk ["git", "checkout", "data"] fs)).bind
        (fun fs₂ _ => runB B.testsOk ["make", "tests"] fs₂)).fsOf = fs ∧
    Event.writeFile ".bqinstall.trampoline.sh" ∉
      ((Res.prependTr [.rmtree "data"] (runB B.gitDataOk ["git", "checkout", "data"] fs)).bind
        (fun fs₂ _ => runB B.testsOk ["make", "tests"] fs₂)).trOf ∧
    Event.cmd ["git", "clone", REPO_URL, REPO_DIR] ∉
      ((Res.prependTr [.rmtree "data"] (runB B.gitDataOk ["git", "checkout", "data"] fs)).bind
        (fun fs₂ _ => runB B.testsOk ["make", "tests"] fs₂)).trOf := by
  by_cases h1 : B.gitDataOk = true <;>
    by_cases h2 : B.testsOk = true <;>
      simp [runB, h1, h2, REPO_URL]

/-- With cleanup enabled and a never-failing revision checkout, the checkout
scope always ends with the well-known directory absent: a pre-existing
directory is removed up front, a clone failure leaves nothing, and every exit
after acquisition runs the `finally` removal. -/
theorem inside_git_cleanup_repoDir (cloneOk : Bool) (url : String) (hash : Option String)
    (dir : String) (body : FS → Res Unit) (fs : FS) :
    (inside_git_repository cloneOk true url hash dir true body fs).fsOf.repoDir = none := by
  rcases fs with ⟨rd, tramp, cwd⟩
  cases cloneOk
  · rcases rd with _ | d <;> simp [inside_git_repository]
  · rcases rd with _ | d <;>
    · rcases hb : body
          { repoDir := some (.checkedOut url (hash.getD "")), trampoline := tramp,
            cwd := dir :: cwd } with
        ⟨fs₄, tr₄, a₄⟩ | ⟨fs₄, tr₄, e₄⟩ <;>
        simp [inside_git_repository, teardown_git_scope, hb]

/-- The checkout scope neither creates a trampoline file itself nor touches
the trampoline flag; given a body with the same property (relative to the
invariant), the whole scope satisfies the trampoline part of the cleanup
invariant. -/
theorem inside_git_tramp_settled (cloneOk checkoutOk : Bool) (url : String)
    (hash : Option String) (dir : String) (cleanup : Bool) (body : FS → Res Unit) (fs : FS)
    (hbody : ∀ f, TrampSettled f (body f)) :
    TrampSettled fs (inside_git_repository cloneOk checkoutOk url hash dir cleanup body fs) := by
  rcases fs with ⟨rd, tramp, cwd⟩
  cases cloneOk
  · rcases rd with _ | d <;>
      exact Or.inr ⟨by simp [inside_git_repository], by simp [inside_git_repository]⟩
  · cases checkoutOk
    · rcases rd with _ | d <;>
        exact Or.inr ⟨by simp [inside_git_repository], by simp [inside_git_repository]⟩
    · rcases rd with _ | d <;>
      · have hb := hbody
          { repoDir := some (.checkedOut url (hash.getD "")), trampoline := tramp,
            cwd := dir :: cwd }
        rcases hb2 : body
            { repoDir := some (.checkedOut url (hash.getD "")), trampoline := tramp,
              cwd := dir :: cwd } with
          ⟨fs₄, tr₄, a₄⟩ | ⟨fs₄, tr₄, e₄⟩ <;>
          rw [hb2] at hb <;>
          rcases hb with hb | ⟨hbp, hbn⟩ <;>
          cases cleanup <;>
            first
            | exact Or.inl (by
                simp [inside_git_repository, teardown_git_scope, hb2]
                simpa using hb)
            | exact Or.inr ⟨by
                simp [inside_git_repository, teardown_git_scope, hb2]
                simpa using hbp, by
                simp [inside_git_repository, teardown_git_scope, hb2]
                simpa using hbn⟩

/-- The checkout scope never touches the trampoline flag when its body does
not. -/
theorem inside_git_tramp_preserve (cloneOk checkoutOk : Bool) (url : String)
    (hash : Option String) (dir : String) (cleanup : Bool) (body : FS → Res Unit) (fs : FS)
    (hbody : ∀ f, ((body f).fsOf).trampoline = f.trampoline) :
    ((inside_git_repository cloneOk checkoutOk url hash dir cleanup body fs).fsOf).trampoline
      = fs.trampoline := by
  rcases fs with ⟨rd, tramp, cwd⟩
  cases cloneOk
  · rcases rd with _ | d <;> simp [inside_git_repository]
  · cases checkoutOk
    · rcases rd with _ | d <;> simp [inside_git_repository]
    · rcases rd with _ | d <;>
      · have hb := hbody
          { repoDir := some (.checkedOut url (hash.getD "")), trampoline := tramp,
            cwd := dir :: cwd }
        rcases hb2 : body
            { repoDir := some (.checkedOut url (hash.getD "")), trampoline := tramp,
              cwd := dir :: cwd } with
          ⟨fs₄, tr₄, a₄⟩ | ⟨fs₄, tr₄, e₄⟩ <;>
          rw [hb2] at hb <;>
          cases cleanup <;>
            simp_all [inside_git_repository, teardown_git_scope]

/-- With cleanup enabled and a trampoline-flag-preserving child, the
re-activation wrapper always ends with the trampoline file absent: the
`finally` unlink runs on every exit path after the file was created. -/
theorem run_with_tramp_false (B : Behavior) (stage : String) (child : FS → Res Unit) (fs : FS)
    (hchild : ∀ f, ((child f).fsOf).trampoline = f.trampoline) :
    ((run_with_reactivated_environment B stage child true fs).fsOf).trampoline = false := by
  simp only [run_with_reactivated_environment]
  rcases detect_conda_activate_script_cases B { fs with trampoline := true } with ⟨v, hd⟩ | ⟨e, hd⟩
  · rw [hd]
    cases hch : B.chmodOk
    · simp [runB, hch, trampoline_finally]
    · rcases hc : child { fs with trampoline := true } with ⟨fs₄, tr₄, a₄⟩ | ⟨fs₄, tr₄, e₄⟩ <;>
      · have hft := hchild { fs with trampoline := true }
        rw [hc] at hft
        simp at hft
        simp [runB, hch, hc, trampoline_finally, hft]
  · rw [hd]
    simp [trampoline_finally]

/-- The re-activation wrapper's own steps never touch the checkout directory
and never clone; the checkout-directory part of the cleanup invariant passes
through it from the child stage. -/
theorem run_with_repo_settled (B : Behavior) (stage : String) (child : FS → Res Unit)
    (cleanup : Bool) (fs : FS) (hchild : ∀ f, RepoSettled f (child f)) :
    RepoSettled fs (run_with_reactivated_environment B stage child cleanup fs) := by
  simp only [run_with_reactivated_environment]
  rcases detect_conda_activate_script_cases B { fs with trampoline := true } with ⟨v, hd⟩ | ⟨e, hd⟩
  · rw [hd]
    cases hch : B.chmodOk
    · cases cleanup <;>
        exact Or.inr ⟨by simp [runB, hch, trampoline_finally], by simp [runB, hch, trampoline_finally]⟩
    · rcases hc : child { fs with trampoline := true } with ⟨fs₄, tr₄, a₄⟩ | ⟨fs₄, tr₄, e₄⟩ <;>
      · have hcs := hchild { fs with trampoline := true }
        rw [hc] at hcs
        rcases hcs with hleft | ⟨hp, hn⟩
        · refine Or.inl ?_
          cases cleanup <;> cases hft : fs₄.trampoline <;>
            simp_all [runB, hch, trampoline_finally]
        · refine Or.inr ⟨?_, ?_⟩
          · cases cleanup <;> cases hft : fs₄.trampoline <;>
              simp_all [runB, hch, trampoline_finally]
          · cases cleanup <;> cases hft : fs₄.trampoline <;>
              simp_all [runB, hch, trampoline_finally]
  · rw [hd]
    cases cleanup <;>
      exact Or.inr ⟨by simp [trampoline_finally], by simp [trampoline_finally]⟩

/-- The validate stage preserves the trampoline flag. -/
theorem validate_build_tramp_preserve (B : Behavior) (args : Args) (fs : FS) :
    ((psbody_validate_build B args fs).fsOf).trampoline = fs.trampoline :=
  inside_git_tramp_preserve _ _ _ _ _ _ _ fs (fun f => by rw [(validate_body_frame B f).1])

/-- The validate stage satisfies the trampoline part of the cleanup
invariant (it never creates the trampoline file). -/
theorem validate_build_tramp_settled (B : Behavior) (args : Args) (fs : FS) :
    TrampSettled fs (psbody_validate_build B args fs) :=
  inside_git_tramp_settled _ _ _ _ _ _ _ fs
    (fun f => Or.inr ⟨by rw [(validate_body_frame B f).1], (validate_body_frame B f).2.1⟩)

/-- When validation's revision checkout never fails and cleanup is enabled,
the validate stage always ends with the checkout directory absent. -/
theorem validate_build_repo_none (B : Behavior) (args : Args) (fs : FS)
    (hvc : B.valCheckoutOk = true) (hclean : args.noCleanup = false) :
    ((psbody_validate_build B args fs).fsOf).repoDir = none := by
  unfold psbody_validate_build
  rw [hvc, hclean]
  exact inside_git_cleanup_repoDir _ _ _ _ _ _

/-- A plain command satisfies the trampoline part of the cleanup
invariant. -/
theorem runB_tramp_settled (okFlag : Bool) (cmd : List String) (fs : FS) :
    TrampSettled fs (runB okFlag cmd fs) := by
  cases okFlag <;> exact Or.inr ⟨by simp [runB], by simp [runB]⟩

/-- A plain command other than the well-known clone satisfies the
checkout-directory part of the cleanup invariant. -/
theorem runB_repo_settled (okFlag : Bool) (cmd : List String) (fs : FS)
    (hcmd : cmd ≠ ["git", "clone", REPO_URL, REPO_DIR]) :
    RepoSettled fs (runB okFlag cmd fs) := by
  cases okFlag <;>
    exact Or.inr ⟨by simp [runB], by simp [runB] ; exact fun h => hcmd h.symm⟩

/-- Every run of the whole pipeline with cleanup enabled satisfies the
trampoline part of the cleanup invariant. -/
theorem pipeline_tramp_settled (B : Behavior) (args : Args) (fs : FS)
    (hclean : args.noCleanup = false) :
    TrampSettled fs (psbody_pipeline B args fs) := by
  unfold psbody_pipeline install_script_main
  simp only [hclean, Bool.not_false]
  by_cases h1 : args.environment = "prepare_environment"
  · rw [if_pos h1]
    apply trampSettled_bindR
    · rcases detect_conda_environment_cases B fs with ⟨v, hd⟩ | ⟨e, hd⟩ <;>
        · rw [hd]
          exact Or.inr ⟨by simp, by simp⟩
    · intro fs₁ name
      apply trampSettled_bindR
      · unfold psbody_prepare_environment
        simp only [hclean, Bool.not_false]
        apply inside_git_tramp_settled
        intro f
        unfold install_compiling_dependencies
        apply trampSettled_bindR
        · exact runB_tramp_settled _ _ _
        · intro f₂ _
          apply trampSettled_bindR
          · exact runB_tramp_settled _ _ _
          · intro f₃ _
            apply trampSettled_bindR
            · exact runB_tramp_settled _ _ _
            · intro f₄ _
              exact Or.inl (run_with_tramp_false B "execute_build" (psbody_execute_build B) f₄
                (fun f => by rw [(execute_build_frame B f).1]))
      · intro fs₃ _
        exact Or.inl (run_with_tramp_false B "validate_build" (psbody_validate_build B args) fs₃
          (fun f => validate_build_tramp_preserve B args f))
  · rw [if_neg h1]
    by_cases h2 : args.environment = "execute_build"
    · rw [if_pos h2]
      exact Or.inr ⟨by rw [(execute_build_frame B fs).1], (execute_build_frame B fs).2.1⟩
    · rw [if_neg h2]
      by_cases h3 : args.environment = "validate_build"
      · rw [if_pos h3]
        exact validate_build_tramp_settled B args fs
      · rw [if_neg h3]
        exact Or.inr ⟨rfl, by simp⟩

/-- Every run of the whole pipeline with cleanup enabled, whose
revision-checkout commands never fail after a successful clone, satisfies the
checkout-directory part of the cleanup invariant. -/
theorem pipeline_repo_settled (B : Behavior) (args : Args) (fs : FS)
    (hclean : args.noCleanup = false)
    (hpc : B.prepCheckoutOk = true) (hvc : B.valCheckoutOk = true) :
    RepoSettled fs (psbody_pipeline B args fs) := by
  unfold psbody_pipeline install_script_main
  simp only [hclean, Bool.not_false]
  by_cases h1 : args.environment = "prepare_environment"
  · rw [if_pos h1]
    apply repoSettled_bindR
    · rcases detect_conda_environment_cases B fs with ⟨v, hd⟩ | ⟨e, hd⟩ <;>
        · rw [hd]
          exact Or.inr ⟨by simp, by simp⟩
    · intro fs₁ name
      apply repoSettled_bindR
      · unfold psbody_prepare_environment
        simp only [hclean, Bool.not_false, hpc]
        exact Or.inl (inside_git_cleanup_repoDir _ _ _ _ _ _)
      · intro fs₃ _
        exact run_with_repo_settled B "validate_build" (psbody_validate_build B args) true fs₃
          (fun f => Or.inl (validate_build_repo_none B args f hvc hclean))
  · rw [if_neg h1]
    by_cases h2 : args.environment = "execute_build"
    · rw [if_pos h2]
      exact Or.inr ⟨by rw [(execute_build_frame B fs).1], (execute_build_frame B fs).2.2⟩
    · rw [if_neg h2]
      by_cases h3 : args.environment = "validate_build"
      · rw [if_pos h3]
        exact Or.inl (validate_build_repo_none B args fs hvc hclean)
      · rw [if_neg h3]
        exact Or.inr ⟨rfl, by simp⟩

/-! ### Claim C3 -/

/-- C3 counterexample: the claim promises that with `--no-cleanup` unset, a
checkout directory created during the run never survives the run. It does
survive when the pinned-revision checkout command fails right after a
successful clone: cleanup is enabled, the trace shows the clone happened, yet
the run ends (non-zero) with the checkout directory still on disk. -/
theorem c3_counterexample :
    defaultArgs.noCleanup = false ∧
    (psbody_pipeline { happyBehavior with prepCheckoutOk := false } defaultArgs cleanFS).isOk
      = false ∧
    Event.cmd ["git", "clone", REPO_URL, REPO_DIR] ∈
      (psbody_pipeline { happyBehavior with prepCheckoutOk := false } defaultArgs cleanFS).trOf ∧
    (psbody_pipeline { happyBehavior with prepCheckoutOk := false } defaultArgs cleanFS).fsOf.repoDir
      ≠ none := by
  decide

/-- C3 (amended): for every pipeline run in which `--no-cleanup` is not set,
*provided every revision-checkout command issued while acquiring a checkout
scope succeeds (a checkout-scope acquisition never fails between its clone
and its revision checkout)*, after the run exits — successfully or not —
neither the trampoline script nor the checkout directory exists on disk if it
was created during the run. -/
theorem c3_cleanup_invariant (B : Behavior) (args : Args) (fs : FS)
    (hclean : args.noCleanup = false)
    (hpc : B.prepCheckoutOk = true) (hvc : B.valCheckoutOk = true) :
    (Event.writeFile ".bqinstall.trampoline.sh" ∈ (psbody_pipeline B args fs).trOf →
      ((psbody_pipeline B args fs).fsOf).trampoline = false) ∧
    (Event.cmd ["git", "clone", REPO_URL, REPO_DIR] ∈ (psbody_pipeline B args fs).trOf →
      ((psbody_pipeline B args fs).fsOf).repoDir = none) := by
  constructor
  · intro hmem
    rcases pipeline_tramp_settled B args fs hclean with h | ⟨_, hn⟩
    · exact h
    · exact absurd hmem hn
  · intro hmem
    rcases pipeline_repo_settled B args fs hclean hpc hvc with h | ⟨_, hn⟩
    · exact h
    · exact absurd hmem hn

/-- Witness for C3 (amended): a run in which the tests fail — both artifacts
were created and both are gone afterwards. -/
theorem c3_cleanup_invariant_witness :
    ((psbody_pipeline { happyBehavior with testsOk := false } defaultArgs cleanFS).fsOf).trampoline
      = false ∧
    ((psbody_pipeline { happyBehavior with testsOk := false } defaultArgs cleanFS).fsOf).repoDir
      = none := by
  have h := c3_cleanup_invariant { happyBehavior with testsOk := false } defaultArgs cleanFS
    rfl rfl rfl
  exact ⟨h.1 (by decide), h.2 (by decide)⟩

end PsbodyBuild
